import Mathlib

/-!
Verification of the Simbody MobilizedBody / Constraint core against its
natural-language specification.  The C++ source consists of two headers:
`MobilizedBody.h` (many operators implemented inline) and `Constraint.h`
(declarations).  We shallowly embed the inline operator bodies over an
exact real-number model of the external math library (3-vectors, 3x3
matrices, rigid transforms), and model from the spec those operations whose
bodies are not part of the source (stage realization, constraint force
recovery, u-partition access).
-/

namespace Simbody

noncomputable section

/-- External math library: a 3-component vector (SimTK `Vec3`). -/
@[ext]
structure Vec3 where
  x : ℝ
  y : ℝ
  z : ℝ

/-- Vector addition. -/
def vadd (a b : Vec3) : Vec3 := ⟨a.x + b.x, a.y + b.y, a.z + b.z⟩

/-- Vector subtraction. -/
def vsub (a b : Vec3) : Vec3 := ⟨a.x - b.x, a.y - b.y, a.z - b.z⟩

/-- Vector negation. -/
def vneg (a : Vec3) : Vec3 := ⟨-a.x, -a.y, -a.z⟩

/-- Scalar multiple of a vector. -/
def smul3 (c : ℝ) (a : Vec3) : Vec3 := ⟨c * a.x, c * a.y, c * a.z⟩

/-- The zero vector. -/
def vzero : Vec3 := ⟨0, 0, 0⟩

/-- Dot product. -/
def dot3 (a b : Vec3) : ℝ := a.x * b.x + a.y * b.y + a.z * b.z

/-- Cross product (the C++ `%` operator on `Vec3`). -/
def cross3 (a b : Vec3) : Vec3 :=
  ⟨a.y * b.z - a.z * b.y, a.z * b.x - a.x * b.z, a.x * b.y - a.y * b.x⟩

/-- Euclidean norm (SimTK `Vec3::norm()`). -/
def norm3 (a : Vec3) : ℝ := Real.sqrt (dot3 a a)

/-- External math library: a 3x3 matrix given by rows (used for SimTK
`Rotation`). -/
@[ext]
structure Mat33 where
  r0 : Vec3
  r1 : Vec3
  r2 : Vec3

/-- Matrix-vector product. -/
def mulVecM (m : Mat33) (v : Vec3) : Vec3 := ⟨dot3 m.r0 v, dot3 m.r1 v, dot3 m.r2 v⟩

/-- Matrix transpose (the C++ `~` operator on `Rotation`). -/
def transposeM (m : Mat33) : Mat33 :=
  ⟨⟨m.r0.x, m.r1.x, m.r2.x⟩, ⟨m.r0.y, m.r1.y, m.r2.y⟩, ⟨m.r0.z, m.r1.z, m.r2.z⟩⟩

/-- The identity matrix. -/
def idM : Mat33 := ⟨⟨1, 0, 0⟩, ⟨0, 1, 0⟩, ⟨0, 0, 1⟩⟩

/-- Matrix product. -/
def mulM (a b : Mat33) : Mat33 :=
  ⟨mulVecM (transposeM b) a.r0, mulVecM (transposeM b) a.r1, mulVecM (transposeM b) a.r2⟩

/-- A `Rotation` value is a 3x3 matrix that is orthogonal: its transpose is a
two-sided inverse, as guaranteed by the external math library's `Rotation`
class. -/
def IsRotationM (m : Mat33) : Prop :=
  mulM (transposeM m) m = idM ∧ mulM m (transposeM m) = idM

/-- External math library: a rigid transform (SimTK `Transform`), a rotation
matrix together with a translation; `X * p = R p + t`. -/
@[ext]
structure Transform where
  R : Mat33
  p : Vec3

/-- Apply a transform to a point: `X * p`. -/
def applyT (X : Transform) (v : Vec3) : Vec3 := vadd (mulVecM X.R v) X.p

/-- The identity transform (C++ `Transform()`). -/
def idT : Transform := ⟨idM, vzero⟩

/-- Transform inverse (the C++ `~` operator): `~X = (R^T, -(R^T t))`. -/
def invT (X : Transform) : Transform := ⟨transposeM X.R, vneg (mulVecM (transposeM X.R) X.p)⟩

/-- Transform composition: `(X1 * X2) * p = X1 * (X2 * p)`. -/
def mulT (X1 X2 : Transform) : Transform := ⟨mulM X1.R X2.R, vadd (mulVecM X1.R X2.p) X1.p⟩

theorem mulVecM_mulM (a b : Mat33) (v : Vec3) :
    mulVecM (mulM a b) v = mulVecM a (mulVecM b v) := by
  ext <;> simp [mulM, mulVecM, transposeM, dot3] <;> ring

theorem mulVecM_idM (v : Vec3) : mulVecM idM v = v := by
  ext <;> simp [mulVecM, idM, dot3]

theorem mulVecM_vadd (m : Mat33) (u v : Vec3) :
    mulVecM m (vadd u v) = vadd (mulVecM m u) (mulVecM m v) := by
  ext <;> simp [mulVecM, vadd, dot3] <;> ring

theorem mulVecM_vneg (m : Mat33) (u : Vec3) :
    mulVecM m (vneg u) = vneg (mulVecM m u) := by
  ext <;> simp [mulVecM, vneg, dot3] <;> ring

/-- The per-body Position-stage kinematic state held in the State cache:
the body's ground-frame transform `X_GB = (R_GB, p_GB)`, spatial velocity
`V_GB = (w_GB, v_GB)` and spatial acceleration `A_GB = (b_GB, a_GB)`,
exactly the quantities returned by the Position/Velocity/Acceleration
responses `getBodyTransform`, `getBodyVelocity`, `getBodyAcceleration`. -/
structure BodyKin where
  R_GB : Mat33
  p_GB : Vec3
  w_GB : Vec3
  v_GB : Vec3
  b_GB : Vec3
  a_GB : Vec3

/-- Response `getBodyTransform`: the cached `X_GB`. -/
def getBodyTransform (k : BodyKin) : Transform := ⟨k.R_GB, k.p_GB⟩

/-- Basic operator `locateBodyPointOnGround`:
`return getBodyTransform(s) * locationOnB`. -/
def locateBodyPointOnGround (k : BodyKin) (locationOnB : Vec3) : Vec3 :=
  applyT (getBodyTransform k) locationOnB

/-- Basic operator `locateGroundPointOnBody`:
`return ~getBodyTransform(s) * locationOnG`. -/
def locateGroundPointOnBody (k : BodyKin) (locationOnG : Vec3) : Vec3 :=
  applyT (invT (getBodyTransform k)) locationOnG

theorem applyT_invT_applyT (X : Transform) (h : mulM (transposeM X.R) X.R = idM)
    (v : Vec3) : applyT (invT X) (applyT X v) = v := by
  simp only [applyT, invT, mulVecM_vadd]
  rw [← mulVecM_mulM, h, mulVecM_idM]
  ext <;> simp [vadd, vneg]

theorem applyT_applyT_invT (X : Transform) (h : mulM X.R (transposeM X.R) = idM)
    (v : Vec3) : applyT X (applyT (invT X) v) = v := by
  simp only [applyT, invT, mulVecM_vadd, mulVecM_vneg]
  rw [← mulVecM_mulM, ← mulVecM_mulM, h, mulVecM_idM, mulVecM_idM]
  ext <;> simp [vadd, vneg]

/-- Claim C5: for every body with an orthogonal cached rotation and every
point `p`, the round trip `locateGroundPointOnBody (locateBodyPointOnGround p)`
returns `p`, and the two station-location operators, which apply `X_GB` and
its inverse respectively, are mutually inverse. -/
theorem locate_round_trip (k : BodyKin) (h : IsRotationM k.R_GB) (p : Vec3) :
    locateGroundPointOnBody k (locateBodyPointOnGround k p) = p ∧
    locateBodyPointOnGround k (locateGroundPointOnBody k p) = p := by
  constructor
  · exact applyT_invT_applyT (getBodyTransform k) h.1 p
  · exact applyT_applyT_invT (getBodyTransform k) h.2 p

/-- A concrete 90-degree rotation about the z axis. -/
def rotZ90 : Mat33 := ⟨⟨0, -1, 0⟩, ⟨1, 0, 0⟩, ⟨0, 0, 1⟩⟩

/-- A concrete body placement used for witnesses. -/
def kinW : BodyKin :=
  { R_GB := rotZ90, p_GB := ⟨1, 2, 3⟩, w_GB := vzero, v_GB := vzero,
    b_GB := vzero, a_GB := vzero }

/-- Basic operator `expressBodyVectorInGround`: `return getBodyRotation(s)*vectorInB`. -/
def expressBodyVectorInGround (k : BodyKin) (vectorInB : Vec3) : Vec3 :=
  mulVecM k.R_GB vectorInB

/-- Basic operator `calcBodyFixedPointVelocityInGround`:
`r = expressBodyVectorInGround(s,stationOnB); return v + w % r`. -/
def calcBodyFixedPointVelocityInGround (k : BodyKin) (stationOnB : Vec3) : Vec3 :=
  vadd k.v_GB (cross3 k.w_GB (expressBodyVectorInGround k stationOnB))

/-- Basic operator `calcBodyFixedPointLocationAndVelocityInGround`, the batched
location/velocity computation: `r = expressBodyVectorInGround(s,locationOnB);
locationOnGround = r_G_OB + r; velocityInGround = v + w % r`.  The two output
parameters are returned as a pair (location, velocity). -/
def calcBodyFixedPointLocationAndVelocityInGround (k : BodyKin) (locationOnB : Vec3) :
    Vec3 × Vec3 :=
  (vadd k.p_GB (expressBodyVectorInGround k locationOnB),
   vadd k.v_GB (cross3 k.w_GB (expressBodyVectorInGround k locationOnB)))

/-- Basic operator `calcBodyFixedPointAccelerationInGround`:
`r = expressBodyVectorInGround(s,stationOnB); return a + b % r + w % (w % r)`. -/
def calcBodyFixedPointAccelerationInGround (k : BodyKin) (stationOnB : Vec3) : Vec3 :=
  vadd (vadd k.a_GB (cross3 k.b_GB (expressBodyVectorInGround k stationOnB)))
    (cross3 k.w_GB (cross3 k.w_GB (expressBodyVectorInGround k stationOnB)))

/-- Basic operator `calcBodyFixedPointLocationVelocityAndAccelerationInGround`,
the batched location/velocity/acceleration computation:
`r = R_GB*locationOnB; locationOnGround = r_G_OB + r; wXr = w % r;
velocityInGround = v + wXr; accelerationInGround = a + b % r + w % wXr`.
The three output parameters are returned as a triple. -/
def calcBodyFixedPointLocationVelocityAndAccelerationInGround
    (k : BodyKin) (locationOnB : Vec3) : Vec3 × Vec3 × Vec3 :=
  (vadd k.p_GB (mulVecM k.R_GB locationOnB),
   vadd k.v_GB (cross3 k.w_GB (mulVecM k.R_GB locationOnB)),
   vadd (vadd k.a_GB (cross3 k.b_GB (mulVecM k.R_GB locationOnB)))
     (cross3 k.w_GB (cross3 k.w_GB (mulVecM k.R_GB locationOnB))))

/-- Claim C9: the batched operators return exactly the same location, velocity
and acceleration as the corresponding separate calls `locateBodyPointOnGround`,
`calcBodyFixedPointVelocityInGround` and `calcBodyFixedPointAccelerationInGround`:
the cheaper combined computations are equivalent to the individual operators. -/
theorem batched_point_kinematics_eq (k : BodyKin) (locationOnB : Vec3) :
    calcBodyFixedPointLocationAndVelocityInGround k locationOnB
      = (locateBodyPointOnGround k locationOnB,
         calcBodyFixedPointVelocityInGround k locationOnB) ∧
    calcBodyFixedPointLocationVelocityAndAccelerationInGround k locationOnB
      = (locateBodyPointOnGround k locationOnB,
         calcBodyFixedPointVelocityInGround k locationOnB,
         calcBodyFixedPointAccelerationInGround k locationOnB) := by
  have hloc : vadd k.p_GB (mulVecM k.R_GB locationOnB)
      = locateBodyPointOnGround k locationOnB := by
    simp only [locateBodyPointOnGround, applyT, getBodyTransform]
    ext <;> simp [vadd] <;> ring
  constructor
  · refine Prod.ext ?_ rfl
    exact hloc
  · refine Prod.ext ?_ rfl
    exact hloc

/-- Scalar division of a vector, the C++ `r/d` on `Vec3`. -/
def vdiv (a : Vec3) (c : ℝ) : Vec3 := ⟨a.x / c, a.y / c, a.z / c⟩

/-- The Ground-frame separation vector `r = rA - rB` between a station fixed on
body B and a station fixed on body A, as computed by
`calcBodyFixedPointLocationAndVelocityInGround` inside
`calcFixedPointToPointDistanceTimeDerivative`. -/
def relPointSep (kB : BodyKin) (locB : Vec3) (kA : BodyKin) (locA : Vec3) : Vec3 :=
  vsub (calcBodyFixedPointLocationAndVelocityInGround kA locA).1
    (calcBodyFixedPointLocationAndVelocityInGround kB locB).1

/-- The Ground-frame relative velocity `v = vA - vB` between the two stations. -/
def relPointVel (kB : BodyKin) (locB : Vec3) (kA : BodyKin) (locA : Vec3) : Vec3 :=
  vsub (calcBodyFixedPointLocationAndVelocityInGround kA locA).2
    (calcBodyFixedPointLocationAndVelocityInGround kB locB).2

/-- High-level operator `calcFixedPointToPointDistanceTimeDerivative`.
The `same` flag embeds the `isSameMobilizedBody(bodyA)` handle-identity test.
Mirrors the source: compute both stations' ground location and velocity,
`r = rA-rB, v = vA-vB, d = r.norm()`; `if (d==0) return v.norm(); else
return dot(v, r/d)`. -/
def calcFixedPointToPointDistanceTimeDerivative (same : Bool)
    (kB : BodyKin) (locB : Vec3) (kA : BodyKin) (locA : Vec3) : ℝ :=
  if same then 0
  else
    let r := relPointSep kB locB kA locA
    let v := relPointVel kB locB kA locA
    let d := norm3 r
    if d = 0 then norm3 v else dot3 v (vdiv r d)

/-- Claim C3: for stations on two distinct bodies, when the stations are
coincident in Ground (`d = 0`) the distance time derivative is the relative
speed `|v|` (a well-defined real number, no division by zero); when `d > 0`
it is `dot(v, r/d)` along the separation direction. -/
theorem calcFixedPointToPointDistanceTimeDerivative_spec
    (kB kA : BodyKin) (locB locA : Vec3) :
    (norm3 (relPointSep kB locB kA locA) = 0 →
      calcFixedPointToPointDistanceTimeDerivative false kB locB kA locA
        = norm3 (relPointVel kB locB kA locA)) ∧
    (0 < norm3 (relPointSep kB locB kA locA) →
      calcFixedPointToPointDistanceTimeDerivative false kB locB kA locA
        = dot3 (relPointVel kB locB kA locA)
            (vdiv (relPointSep kB locB kA locA) (norm3 (relPointSep kB locB kA locA)))) := by
  constructor
  · intro h
    simp only [calcFixedPointToPointDistanceTimeDerivative, Bool.false_eq_true,
      if_false, h, if_pos]
  · intro h
    simp only [calcFixedPointToPointDistanceTimeDerivative, Bool.false_eq_true,
      if_false]
    rw [if_neg h.ne']

/-- The Ground-frame separation `r = rA - rB` as computed by the batched
triple operator inside `calcFixedPointToPointDistance2ndTimeDerivative`. -/
def relPointSepT (kB : BodyKin) (locB : Vec3) (kA : BodyKin) (locA : Vec3) : Vec3 :=
  vsub (calcBodyFixedPointLocationVelocityAndAccelerationInGround kA locA).1
    (calcBodyFixedPointLocationVelocityAndAccelerationInGround kB locB).1

/-- The Ground-frame relative velocity `v = vA - vB` from the triple operator. -/
def relPointVelT (kB : BodyKin) (locB : Vec3) (kA : BodyKin) (locA : Vec3) : Vec3 :=
  vsub (calcBodyFixedPointLocationVelocityAndAccelerationInGround kA locA).2.1
    (calcBodyFixedPointLocationVelocityAndAccelerationInGround kB locB).2.1

/-- The Ground-frame relative acceleration `a = aA - aB` from the triple operator. -/
def relPointAccT (kB : BodyKin) (locB : Vec3) (kA : BodyKin) (locA : Vec3) : Vec3 :=
  vsub (calcBodyFixedPointLocationVelocityAndAccelerationInGround kA locA).2.2
    (calcBodyFixedPointLocationVelocityAndAccelerationInGround kB locB).2.2

/-- High-level operator `calcFixedPointToPointDistance2ndTimeDerivative`.
Mirrors the source: `r = rA-rB, v = vA-vB, a = aA-aB, d = r.norm()`;
if `d==0` then (if the speed `s = v.norm()` is zero return `a.norm()` else
`dot(a, v/s)`); otherwise `u = r/d; vp = v - dot(v,u)*u;
return dot(a,u) + dot(vp,v)/d`. -/
def calcFixedPointToPointDistance2ndTimeDerivative (same : Bool)
    (kB : BodyKin) (locB : Vec3) (kA : BodyKin) (locA : Vec3) : ℝ :=
  if same then 0
  else
    let r := relPointSepT kB locB kA locA
    let v := relPointVelT kB locB kA locA
    let a := relPointAccT kB locB kA locA
    let d := norm3 r
    if d = 0 then
      if norm3 v = 0 then norm3 a else dot3 a (vdiv v (norm3 v))
    else
      let u := vdiv r d
      dot3 a u + dot3 (vsub v (smul3 (dot3 v u) u)) v / d

/-- Claim C4: the second distance time derivative returns `|a|` when `d = 0`
and `|v| = 0`; `dot(a, v/|v|)` when `d = 0` and `|v| > 0`; and
`dot(a,u) + dot(v - dot(v,u)u, v)/d` with `u = r/d` when `d > 0` — never
dividing by zero in the degenerate cases. -/
theorem calcFixedPointToPointDistance2ndTimeDerivative_spec
    (kB kA : BodyKin) (locB locA : Vec3) :
    (norm3 (relPointSepT kB locB kA locA) = 0 →
      norm3 (relPointVelT kB locB kA locA) = 0 →
      calcFixedPointToPointDistance2ndTimeDerivative false kB locB kA locA
        = norm3 (relPointAccT kB locB kA locA)) ∧
    (norm3 (relPointSepT kB locB kA locA) = 0 →
      0 < norm3 (relPointVelT kB locB kA locA) →
      calcFixedPointToPointDistance2ndTimeDerivative false kB locB kA locA
        = dot3 (relPointAccT kB locB kA locA)
            (vdiv (relPointVelT kB locB kA locA) (norm3 (relPointVelT kB locB kA locA)))) ∧
    (0 < norm3 (relPointSepT kB locB kA locA) →
      calcFixedPointToPointDistance2ndTimeDerivative false kB locB kA locA
        = dot3 (relPointAccT kB locB kA locA)
            (vdiv (relPointSepT kB locB kA locA) (norm3 (relPointSepT kB locB kA locA)))
          + dot3
              (vsub (relPointVelT kB locB kA locA)
                (smul3
                  (dot3 (relPointVelT kB locB kA locA)
                    (vdiv (relPointSepT kB locB kA locA) (norm3 (relPointSepT kB locB kA locA))))
                  (vdiv (relPointSepT kB locB kA locA) (norm3 (relPointSepT kB locB kA locA)))))
              (relPointVelT kB locB kA locA)
            / norm3 (relPointSepT kB locB kA locA)) := by
  refine ⟨?_, ?_, ?_⟩
  · intro hd hv
    simp only [calcFixedPointToPointDistance2ndTimeDerivative, Bool.false_eq_true,
      if_false, hd, hv, if_pos]
  · intro hd hv
    simp only [calcFixedPointToPointDistance2ndTimeDerivative, Bool.false_eq_true,
      if_false, hd, if_pos]
    rw [if_neg hv.ne']
  · intro hd
    simp only [calcFixedPointToPointDistance2ndTimeDerivative, Bool.false_eq_true,
      if_false]
    rw [if_neg hd.ne']

/-- A body at rest at the Ground origin with identity orientation. -/
def kRest : BodyKin :=
  { R_GB := idM, p_GB := vzero, w_GB := vzero, v_GB := vzero, b_GB := vzero, a_GB := vzero }

/-- A body at the Ground origin translating with unit velocity along x. -/
def kVelX : BodyKin :=
  { R_GB := idM, p_GB := vzero, w_GB := vzero, v_GB := ⟨1, 0, 0⟩, b_GB := vzero, a_GB := vzero }

/-- A body at rest at unit distance along x. -/
def kSepX : BodyKin :=
  { R_GB := idM, p_GB := ⟨1, 0, 0⟩, w_GB := vzero, v_GB := vzero, b_GB := vzero, a_GB := vzero }

theorem calcFixedPointToPointDistanceTimeDerivative_spec_witness :
    (norm3 (relPointSep kRest vzero kVelX vzero) = 0 ∧
      calcFixedPointToPointDistanceTimeDerivative false kRest vzero kVelX vzero
        = norm3 (relPointVel kRest vzero kVelX vzero)) ∧
    (0 < norm3 (relPointSep kRest vzero kSepX vzero) ∧
      calcFixedPointToPointDistanceTimeDerivative false kRest vzero kSepX vzero
        = dot3 (relPointVel kRest vzero kSepX vzero)
            (vdiv (relPointSep kRest vzero kSepX vzero)
              (norm3 (relPointSep kRest vzero kSepX vzero)))) := by
  have h1 : norm3 (relPointSep kRest vzero kVelX vzero) = 0 := by
    have : relPointSep kRest vzero kVelX vzero = ⟨0, 0, 0⟩ := by
      simp [relPointSep, calcBodyFixedPointLocationAndVelocityInGround,
        expressBodyVectorInGround, kRest, kVelX, vadd, vsub, mulVecM, dot3, vzero, idM, cross3]
    rw [this]
    simp [norm3, dot3]
  have h2 : 0 < norm3 (relPointSep kRest vzero kSepX vzero) := by
    have : relPointSep kRest vzero kSepX vzero = ⟨1, 0, 0⟩ := by
      simp [relPointSep, calcBodyFixedPointLocationAndVelocityInGround,
        expressBodyVectorInGround, kRest, kSepX, vadd, vsub, mulVecM, dot3, vzero, idM, cross3]
    rw [this]
    have : norm3 ⟨1, 0, 0⟩ = 1 := by
      simp [norm3, dot3]
    rw [this]
    norm_num
  exact ⟨⟨h1, (calcFixedPointToPointDistanceTimeDerivative_spec kRest kVelX vzero vzero).1 h1⟩,
    ⟨h2, (calcFixedPointToPointDistanceTimeDerivative_spec kRest kSepX vzero vzero).2 h2⟩⟩

/-- A body at the Ground origin with unit acceleration along x. -/
def kAccX : BodyKin :=
  { R_GB := idM, p_GB := vzero, w_GB := vzero, v_GB := vzero, b_GB := vzero, a_GB := ⟨1, 0, 0⟩ }

theorem calcFixedPointToPointDistance2ndTimeDerivative_spec_witness :
    (norm3 (relPointSepT kRest vzero kAccX vzero) = 0 ∧
      norm3 (relPointVelT kRest vzero kAccX vzero) = 0 ∧
      calcFixedPointToPointDistance2ndTimeDerivative false kRest vzero kAccX vzero
        = norm3 (relPointAccT kRest vzero kAccX vzero)) ∧
    (norm3 (relPointSepT kRest vzero kVelX vzero) = 0 ∧
      0 < norm3 (relPointVelT kRest vzero kVelX vzero) ∧
      calcFixedPointToPointDistance2ndTimeDerivative false kRest vzero kVelX vzero
        = dot3 (relPointAccT kRest vzero kVelX vzero)
            (vdiv (relPointVelT kRest vzero kVelX vzero)
              (norm3 (relPointVelT kRest vzero kVelX vzero)))) ∧
    (0 < norm3 (relPointSepT kRest vzero kSepX vzero) ∧
      calcFixedPointToPointDistance2ndTimeDerivative false kRest vzero kSepX vzero
        = dot3 (relPointAccT kRest vzero kSepX vzero)
            (vdiv (relPointSepT kRest vzero kSepX vzero)
              (norm3 (relPointSepT kRest vzero kSepX vzero)))
          + dot3
              (vsub (relPointVelT kRest vzero kSepX vzero)
                (smul3
                  (dot3 (relPointVelT kRest vzero kSepX vzero)
                    (vdiv (relPointSepT kRest vzero kSepX vzero)
                      (norm3 (relPointSepT kRest vzero kSepX vzero))))
                  (vdiv (relPointSepT kRest vzero kSepX vzero)
                    (norm3 (relPointSepT kRest vzero kSepX vzero)))))
              (relPointVelT kRest vzero kSepX vzero)
            / norm3 (relPointSepT kRest vzero kSepX vzero)) := by
  have hsepA : norm3 (relPointSepT kRest vzero kAccX vzero) = 0 := by
    have : relPointSepT kRest vzero kAccX vzero = ⟨0, 0, 0⟩ := by
      simp [relPointSepT, calcBodyFixedPointLocationVelocityAndAccelerationInGround,
        kRest, kAccX, vadd, vsub, mulVecM, dot3, vzero, idM, cross3]
    rw [this]
    simp [norm3, dot3]
  have hvelA : norm3 (relPointVelT kRest vzero kAccX vzero) = 0 := by
    have : relPointVelT kRest vzero kAccX vzero = ⟨0, 0, 0⟩ := by
      simp [relPointVelT, calcBodyFixedPointLocationVelocityAndAccelerationInGround,
        kRest, kAccX, vadd, vsub, mulVecM, dot3, vzero, idM, cross3]
    rw [this]
    simp [norm3, dot3]
  have hsepV : norm3 (relPointSepT kRest vzero kVelX vzero) = 0 := by
    have : relPointSepT kRest vzero kVelX vzero = ⟨0, 0, 0⟩ := by
      simp [relPointSepT, calcBodyFixedPointLocationVelocityAndAccelerationInGround,
        kRest, kVelX, vadd, vsub, mulVecM, dot3, vzero, idM, cross3]
    rw [this]
    simp [norm3, dot3]
  have hvelV : 0 < norm3 (relPointVelT kRest vzero kVelX vzero) := by
    have : relPointVelT kRest vzero kVelX vzero = ⟨1, 0, 0⟩ := by
      simp [relPointVelT, calcBodyFixedPointLocationVelocityAndAccelerationInGround,
        kRest, kVelX, vadd, vsub, mulVecM, dot3, vzero, idM, cross3]
    rw [this]
    have : norm3 ⟨1, 0, 0⟩ = 1 := by
      simp [norm3, dot3]
    rw [this]
    norm_num
  have hsepS : 0 < norm3 (relPointSepT kRest vzero kSepX vzero) := by
    have : relPointSepT kRest vzero kSepX vzero = ⟨1, 0, 0⟩ := by
      simp [relPointSepT, calcBodyFixedPointLocationVelocityAndAccelerationInGround,
        kRest, kSepX, vadd, vsub, mulVecM, dot3, vzero, idM, cross3]
    rw [this]
    have : norm3 ⟨1, 0, 0⟩ = 1 := by
      simp [norm3, dot3]
    rw [this]
    norm_num
  refine ⟨⟨hsepA, hvelA, ?_⟩, ⟨hsepV, hvelV, ?_⟩, ⟨hsepS, ?_⟩⟩
  · exact (calcFixedPointToPointDistance2ndTimeDerivative_spec kRest kAccX vzero vzero).1
      hsepA hvelA
  · exact (calcFixedPointToPointDistance2ndTimeDerivative_spec kRest kVelX vzero vzero).2.1
      hsepV hvelV
  · exact (calcFixedPointToPointDistance2ndTimeDerivative_spec kRest kSepX vzero vzero).2.2
      hsepS

theorem locate_round_trip_witness :
    IsRotationM kinW.R_GB ∧
    (locateGroundPointOnBody kinW (locateBodyPointOnGround kinW ⟨4, 5, 6⟩) = ⟨4, 5, 6⟩ ∧
     locateBodyPointOnGround kinW (locateGroundPointOnBody kinW ⟨4, 5, 6⟩) = ⟨4, 5, 6⟩) := by
  have h : IsRotationM kinW.R_GB := by
    constructor <;>
      · ext <;>
          simp [kinW, rotZ90, mulM, mulVecM, transposeM, idM, dot3]
  exact ⟨h, locate_round_trip kinW h ⟨4, 5, 6⟩⟩

/-- High-level operator `calcBodyTransformFromBody`, returning `X_AB`, body B's
transform in body A's frame.  Bodies are identified by index with Ground at
index 0 (`isGround()`); equality of indices embeds `isSameMobilizedBody`.
`X` maps a body index to its cached Ground transform `X_GB`.  Mirrors the
source: same body gives `Transform()` (identity, no access to the State);
`fromBodyA` Ground gives `X_GB`; this body Ground gives `~X_GA`; otherwise
`~X_GA * X_GB`. -/
def calcBodyTransformFromBody (X : ℕ → Transform) (B A : ℕ) : Transform :=
  if B = A then idT
  else if A = 0 then X B
  else if B = 0 then invT (X A)
  else mulT (invT (X A)) (X B)

/-- Claim C6: `calcBodyTransformFromBody` returns the identity transform when
the two bodies are the same mobilized body (for every state map `X`, i.e.
without reading the State); the Ground-relative response `X_GB` when A is
Ground; the inverse of `X_GA` when B is Ground; and otherwise the composition
`(~X_GA) * X_GB` of the two Ground-relative responses. -/
theorem calcBodyTransformFromBody_spec (X : ℕ → Transform) (B A : ℕ) :
    calcBodyTransformFromBody X B B = idT ∧
    (B ≠ A → A = 0 → calcBodyTransformFromBody X B A = X B) ∧
    (B ≠ A → A ≠ 0 → B = 0 → calcBodyTransformFromBody X B A = invT (X A)) ∧
    (B ≠ A → A ≠ 0 → B ≠ 0 → calcBodyTransformFromBody X B A = mulT (invT (X A)) (X B)) := by
  refine ⟨?_, ?_, ?_, ?_⟩
  · simp [calcBodyTransformFromBody]
  · intro hBA hA
    subst hA
    simp [calcBodyTransformFromBody, hBA]
  · intro hBA hA hB
    subst hB
    simp [calcBodyTransformFromBody, hBA, hA]
  · intro hBA hA hB
    simp [calcBodyTransformFromBody, hBA, hA, hB]

/-- A concrete body-index-to-transform map used for the C6 witness. -/
def mapW : ℕ → Transform := fun _ => ⟨rotZ90, ⟨1, 2, 3⟩⟩

theorem calcBodyTransformFromBody_spec_witness :
    calcBodyTransformFromBody mapW 1 1 = idT ∧
    calcBodyTransformFromBody mapW 1 0 = mapW 1 ∧
    calcBodyTransformFromBody mapW 0 1 = invT (mapW 1) ∧
    calcBodyTransformFromBody mapW 2 1 = mulT (invT (mapW 1)) (mapW 2) := by
  refine ⟨(calcBodyTransformFromBody_spec mapW 1 1).1, ?_, ?_, ?_⟩
  · exact (calcBodyTransformFromBody_spec mapW 1 0).2.1 (by decide) rfl
  · exact (calcBodyTransformFromBody_spec mapW 0 1).2.2.1 (by decide) (by decide) rfl
  · exact (calcBodyTransformFromBody_spec mapW 2 1).2.2.2 (by decide) (by decide) (by decide)

/-- The error taxonomy of the core (spec section 7); `stageViolation` for
reads at the wrong realization stage, `notImplemented` for the explicitly
unimplemented operators. -/
inductive SimbodyError where
  | stageViolation
  | notImplemented
deriving DecidableEq

/-- High-level operator `calcBodyMovingPointVelocityInBody`.  The source body
is `SimTK_ASSERT_ALWAYS(!"unimplemented method", ...); return Vec3::getNaN();`:
the always-failing assertion fires on every call, so the operator is embedded
as the fallible function that always fails with `notImplemented`; the NaN
return expression after the assertion is an unreachable sentinel and is not
modelled. -/
def calcBodyMovingPointVelocityInBody (kB : BodyKin)
    (locationOnBodyB velocityOnBodyB : Vec3) (kA : BodyKin) :
    Except SimbodyError Vec3 :=
  Except.error SimbodyError.notImplemented

/-- High-level operator `calcBodyMovingPointAccelerationInBody`; the source
body is an always-failing assertion followed by an unreachable NaN return. -/
def calcBodyMovingPointAccelerationInBody (kB : BodyKin)
    (locationOnBodyB velocityOnBodyB accelerationOnBodyB : Vec3) (kA : BodyKin) :
    Except SimbodyError Vec3 :=
  Except.error SimbodyError.notImplemented

/-- High-level operator `calcMovingPointToPointDistanceTimeDerivative`; the
source body is an always-failing assertion followed by an unreachable NaN
return. -/
def calcMovingPointToPointDistanceTimeDerivative (kB : BodyKin)
    (locationOnBodyB velocityOnBodyB : Vec3) (kA : BodyKin)
    (locationOnBodyA velocityOnBodyA : Vec3) :
    Except SimbodyError ℝ :=
  Except.error SimbodyError.notImplemented

/-- Claim C8: for every input, each of the moving-point operators fails with
the explicit `notImplemented` error and never returns a silently approximated
finite result. -/
theorem moving_point_operators_unimplemented (kB kA : BodyKin)
    (p v a pA vA : Vec3) :
    calcBodyMovingPointVelocityInBody kB p v kA
      = Except.error SimbodyError.notImplemented ∧
    calcBodyMovingPointAccelerationInBody kB p v a kA
      = Except.error SimbodyError.notImplemented ∧
    calcMovingPointToPointDistanceTimeDerivative kB p v kA pA vA
      = Except.error SimbodyError.notImplemented ∧
    (∀ r : Vec3, calcBodyMovingPointVelocityInBody kB p v kA ≠ Except.ok r) ∧
    (∀ r : Vec3, calcBodyMovingPointAccelerationInBody kB p v a kA ≠ Except.ok r) ∧
    (∀ r : ℝ, calcMovingPointToPointDistanceTimeDerivative kB p v kA pA vA ≠ Except.ok r) := by
  refine ⟨rfl, rfl, rfl, ?_, ?_, ?_⟩ <;> · intro r h
                                           exact Except.noConfusion h

theorem moving_point_operators_unimplemented_witness :
    calcBodyMovingPointVelocityInBody kRest vzero vzero kRest
      = Except.error SimbodyError.notImplemented ∧
    calcBodyMovingPointAccelerationInBody kRest vzero vzero vzero kRest
      = Except.error SimbodyError.notImplemented ∧
    calcMovingPointToPointDistanceTimeDerivative kRest vzero vzero kRest vzero vzero
      = Except.error SimbodyError.notImplemented ∧
    (∀ r : Vec3, calcBodyMovingPointVelocityInBody kRest vzero vzero kRest ≠ Except.ok r) ∧
    (∀ r : Vec3,
      calcBodyMovingPointAccelerationInBody kRest vzero vzero vzero kRest ≠ Except.ok r) ∧
    (∀ r : ℝ,
      calcMovingPointToPointDistanceTimeDerivative kRest vzero vzero kRest vzero vzero
        ≠ Except.ok r) :=
  moving_point_operators_unimplemented kRest kRest vzero vzero vzero vzero vzero

/-- The ordered realization-stage enumeration (spec section 3): Empty,
Topology, Model, Instance, Time, Position, Velocity, Dynamics, Acceleration. -/
inductive Stage where
  | Empty
  | Topology
  | Model
  | Instance
  | Time
  | Position
  | Velocity
  | Dynamics
  | Acceleration
deriving DecidableEq

/-- The rank of a stage in the ordered enumeration. -/
def stageNum : Stage → ℕ
  | .Empty => 0
  | .Topology => 1
  | .Model => 2
  | .Instance => 3
  | .Time => 4
  | .Position => 5
  | .Velocity => 6
  | .Dynamics => 7
  | .Acceleration => 8

/-- Modelled from the spec: the State container (`getBodyTransform`,
`setOneQ`, `setQVector` and `realize` are declared but not implemented in the
source headers).  A State holds the generalized coordinates `q`, the
per-subsystem realization-stage marker, and the cache of Position-stage body
transforms keyed by body index. -/
structure MState where
  marker : Stage
  q : List ℝ
  xCache : ℕ → Transform

/-- Modelled from the spec: `realize(State, Position)` advances the State's
marker to Position, computing the Position-stage cache (body transforms) from
the current `q` via the kinematics function `kin`; if the marker is already at
Position or above, nothing changes. -/
def realizePosition (kin : List ℝ → ℕ → Transform) (s : MState) : MState :=
  if stageNum Stage.Position ≤ stageNum s.marker then s
  else { marker := Stage.Position, q := s.q, xCache := kin s.q }

/-- Modelled from the spec: invalidation of Position stage — any setter on a
Position-stage quantity must reset the marker below Position (to Time, the
stage just below) before returning. -/
def invalidatePosition (s : MState) : MState :=
  if stageNum Stage.Position ≤ stageNum s.marker then { s with marker := Stage.Time } else s

/-- Modelled from the spec: `MobilizedBody::setOneQ` writes one generalized
coordinate in this mobilizer's partition of the full `q` vector and
invalidates Position stage and above. -/
def MState.setOneQ (s : MState) (which : ℕ) (v : ℝ) : MState :=
  invalidatePosition { s with q := s.q.set which v }

/-- Modelled from the spec: `MobilizedBody::setQVector` replaces this
mobilizer's `q` partition and invalidates Position stage and above. -/
def MState.setQVector (s : MState) (v : List ℝ) : MState :=
  invalidatePosition { s with q := v }

/-- Modelled from the spec: the Position-stage response
`MobilizedBody::getBodyTransform` asserts that the marker is at least
Position before returning the cached `X_GB`, failing with `StageViolation`
otherwise. -/
def MState.getBodyTransform (s : MState) (b : ℕ) : Except SimbodyError Transform :=
  if stageNum Stage.Position ≤ stageNum s.marker then Except.ok (s.xCache b)
  else Except.error SimbodyError.stageViolation

/-- Claim C2: before the State is realized to Position, the Position-stage
response `getBodyTransform` fails with `StageViolation`; after
`realize(s, Position)` it succeeds and returns the cached transform; after a
subsequent `setOneQ` or `setQVector` it fails with `StageViolation` again
until Position is re-realized, after which it returns the transform
recomputed from the updated coordinates. -/
theorem stage_discipline_getBodyTransform
    (kin : List ℝ → ℕ → Transform) (s : MState) (b which : ℕ) (v : ℝ) (vv : List ℝ)
    (h : stageNum s.marker < stageNum Stage.Position) :
    MState.getBodyTransform s b = Except.error SimbodyError.stageViolation ∧
    MState.getBodyTransform (realizePosition kin s) b = Except.ok (kin s.q b) ∧
    MState.getBodyTransform ((realizePosition kin s).setOneQ which v) b
      = Except.error SimbodyError.stageViolation ∧
    MState.getBodyTransform ((realizePosition kin s).setQVector vv) b
      = Except.error SimbodyError.stageViolation ∧
    MState.getBodyTransform (realizePosition kin ((realizePosition kin s).setOneQ which v)) b
      = Except.ok (kin (s.q.set which v) b) := by
  have hn : ¬ stageNum Stage.Position ≤ stageNum s.marker := not_le.mpr h
  have hreal : realizePosition kin s
      = { marker := Stage.Position, q := s.q, xCache := kin s.q } := by
    rw [realizePosition, if_neg hn]
  refine ⟨?_, ?_, ?_, ?_, ?_⟩
  · rw [MState.getBodyTransform, if_neg hn]
  · rw [hreal]
    simp [MState.getBodyTransform, stageNum]
  · rw [hreal]
    simp [MState.getBodyTransform, MState.setOneQ, invalidatePosition, stageNum]
  · rw [hreal]
    simp [MState.getBodyTransform, MState.setQVector, invalidatePosition, stageNum]
  · rw [hreal]
    simp [MState.getBodyTransform, realizePosition, MState.setOneQ, invalidatePosition,
      stageNum]

/-- A concrete kinematics function for the C2 witness: the body transform
depends on the first generalized coordinate. -/
def kinKin : List ℝ → ℕ → Transform := fun q _ => ⟨idM, ⟨q.getD 0 0, 0, 0⟩⟩

/-- A concrete Model-stage state for the C2 witness. -/
def stateW : MState := { marker := Stage.Model, q := [0], xCache := fun _ => idT }

theorem stage_discipline_getBodyTransform_witness :
    stageNum stateW.marker < stageNum Stage.Position ∧
    (MState.getBodyTransform stateW 0 = Except.error SimbodyError.stageViolation ∧
     MState.getBodyTransform (realizePosition kinKin stateW) 0
       = Except.ok (kinKin stateW.q 0) ∧
     MState.getBodyTransform ((realizePosition kinKin stateW).setOneQ 0 1) 0
       = Except.error SimbodyError.stageViolation ∧
     MState.getBodyTransform ((realizePosition kinKin stateW).setQVector [2]) 0
       = Except.error SimbodyError.stageViolation ∧
     MState.getBodyTransform
         (realizePosition kinKin ((realizePosition kinKin stateW).setOneQ 0 1)) 0
       = Except.ok (kinKin (stateW.q.set 0 1) 0)) :=
  ⟨by decide, stage_discipline_getBodyTransform kinKin stateW 0 0 1 [2] (by decide)⟩

/-- Modelled from the spec: the index into the full "u-like" vector of the
slot that `updOneFromUPartition` exposes — the mobilizer's partition starts
at `uStart` and `which` selects within it (`updOneFromUPartition`'s body is
not in the source headers; its doc comment specifies a writable reference to
one u slot of this mobilizer's partition). -/
def updOneFromUPartitionIdx (uStart which : ℕ) : ℕ := uStart + which

/-- Utility `applyOneMobilityForce`:
`updOneFromUPartition(s,which,mobilityForces) += f`.  A "u-like" vector is
embedded as a function from slot index to value; the in-place `+=` through
the writable reference becomes a pointwise function update at the partition
slot. -/
def applyOneMobilityForce (uStart which : ℕ) (f : ℝ) (mobilityForces : ℕ → ℝ) : ℕ → ℝ :=
  Function.update mobilityForces (updOneFromUPartitionIdx uStart which)
    (mobilityForces (updOneFromUPartitionIdx uStart which) + f)

/-- `Pin::applyPinTorque`: `updMyPartU(s,mobilityForces) += torque`.  A Pin
mobilizer has exactly one mobility, so its partition is the single slot at
`uStart`. -/
def applyPinTorque (uStart : ℕ) (torque : ℝ) (mobilityForces : ℕ → ℝ) : ℕ → ℝ :=
  Function.update mobilityForces uStart (mobilityForces uStart + torque)

/-- Claim C10: `applyOneMobilityForce` adds `f` to exactly the one slot of the
u-like vector belonging to this mobilizer's mobility `which` (accumulating,
never overwriting) and leaves every other entry unchanged; likewise
`Pin::applyPinTorque` adds the torque into the pin's single u-slot only. -/
theorem applyOneMobilityForce_spec (uStart which : ℕ) (f torque : ℝ)
    (mobilityForces : ℕ → ℝ) :
    applyOneMobilityForce uStart which f mobilityForces (uStart + which)
      = mobilityForces (uStart + which) + f ∧
    (∀ j, j ≠ uStart + which →
      applyOneMobilityForce uStart which f mobilityForces j = mobilityForces j) ∧
    applyPinTorque uStart torque mobilityForces uStart
      = mobilityForces uStart + torque ∧
    (∀ j, j ≠ uStart → applyPinTorque uStart torque mobilityForces j = mobilityForces j) := by
  refine ⟨?_, ?_, ?_, ?_⟩
  · simp [applyOneMobilityForce, updOneFromUPartitionIdx]
  · intro j hj
    simp only [applyOneMobilityForce, updOneFromUPartitionIdx]
    exact Function.update_noteq hj _ _
  · simp [applyPinTorque]
  · intro j hj
    simp only [applyPinTorque]
    exact Function.update_noteq hj _ _

theorem applyOneMobilityForce_spec_witness :
    applyOneMobilityForce 2 1 5 (fun _ => 0) (2 + 1) = (fun (_ : ℕ) => (0 : ℝ)) (2 + 1) + 5 ∧
    ((0 : ℕ) ≠ 2 + 1 → applyOneMobilityForce 2 1 5 (fun _ => 0) 0 = (fun (_ : ℕ) => (0 : ℝ)) 0) ∧
    applyPinTorque 2 7 (fun _ => 0) 2 = (fun (_ : ℕ) => (0 : ℝ)) 2 + 7 ∧
    ((0 : ℕ) ≠ 2 → applyPinTorque 2 7 (fun _ => 0) 0 = (fun (_ : ℕ) => (0 : ℝ)) 0) := by
  refine ⟨(applyOneMobilityForce_spec 2 1 5 7 (fun _ => 0)).1, ?_, ?_, ?_⟩
  · intro h
    exact (applyOneMobilityForce_spec 2 1 5 7 (fun _ => 0)).2.1 0 h
  · exact (applyOneMobilityForce_spec 2 1 5 7 (fun _ => 0)).2.2.1
  · intro h
    exact (applyOneMobilityForce_spec 2 1 5 7 (fun _ => 0)).2.2.2 0 h

/-- Modelled from the spec: a realized constraint (the bodies of
`Constraint`'s methods are not in the source headers, which only declare
them).  A constraint declares equation counts `(mp, mv, ma)` for holonomic,
nonholonomic and acceleration-only equations over `nu` constrained
mobilities; at a realized State it has per-level Jacobian blocks
`P` (mp x nu), `V` (mv x nu), `A` (ma x nu), per-level error values
(`perr`: holonomic position errors; `pverr`/`paerr`: their first/second time
derivatives; `verr`/`vaerr`: nonholonomic errors and their derivatives;
`aerr`: acceleration-only errors), and the multipliers cached at
Acceleration stage. -/
structure ConstraintModel where
  nu : ℕ
  mp : ℕ
  mv : ℕ
  ma : ℕ
  P : Fin mp → Fin nu → ℝ
  V : Fin mv → Fin nu → ℝ
  A : Fin ma → Fin nu → ℝ
  perr : Fin mp → ℝ
  pverr : Fin mp → ℝ
  verr : Fin mv → ℝ
  paerr : Fin mp → ℝ
  vaerr : Fin mv → ℝ
  aerr : Fin ma → ℝ
  lambda : Fin (mp + mv + ma) → ℝ

/-- Modelled from the spec: `Constraint::getPositionError` returns the `mp`
holonomic position errors ("mp of these"). -/
def getPositionError (c : ConstraintModel) : List ℝ := List.ofFn c.perr

/-- Modelled from the spec: `Constraint::getVelocityError` returns "mp+mv of
these" — the nonholonomic errors stacked after the holonomic-derivative
errors. -/
def getVelocityError (c : ConstraintModel) : List ℝ :=
  List.ofFn c.pverr ++ List.ofFn c.verr

/-- Modelled from the spec: `Constraint::getAccelerationError` returns
"mp+mv+ma of these" — holonomic second derivatives, then nonholonomic first
derivatives, then acceleration-only errors. -/
def getAccelerationError (c : ConstraintModel) : List ℝ :=
  List.ofFn c.paerr ++ List.ofFn c.vaerr ++ List.ofFn c.aerr

/-- Modelled from the spec: `Constraint::getMultipliers` returns "mp+mv+ma of
these". -/
def getMultipliers (c : ConstraintModel) : List ℝ := List.ofFn c.lambda

/-- Modelled from the spec: `calcPositionConstraintMatrixP`, the mp x nu
holonomic Jacobian `P = partial(perr_dot)/partial(u)`. -/
def calcPositionConstraintMatrixP (c : ConstraintModel) : Fin c.mp → Fin c.nu → ℝ := c.P

/-- Modelled from the spec: `calcPositionConstraintMatrixPt`, the nu x mp
matrix "P obtainable transposed for solver convenience". -/
def calcPositionConstraintMatrixPt (c : ConstraintModel) : Fin c.nu → Fin c.mp → ℝ :=
  fun j i => c.P i j

/-- Modelled from the spec: `calcVelocityConstraintMatrixV`, the mv x nu
nonholonomic Jacobian `V = partial(verr)/partial(u)` restricted to the
purely nonholonomic rows. -/
def calcVelocityConstraintMatrixV (c : ConstraintModel) : Fin c.mv → Fin c.nu → ℝ := c.V

/-- Modelled from the spec: `calcAccelerationConstraintMatrixA`, the ma x nu
acceleration-only Jacobian `A = partial(aerr)/partial(udot)`. -/
def calcAccelerationConstraintMatrixA (c : ConstraintModel) : Fin c.ma → Fin c.nu → ℝ := c.A

/-- The stacked `[P;V;A]` Jacobian: rows 0..mp-1 from `P`, rows mp..mp+mv-1
from `V`, rows mp+mv..mp+mv+ma-1 from `A`. -/
def stackedJacobian (c : ConstraintModel) : Fin (c.mp + c.mv + c.ma) → Fin c.nu → ℝ :=
  fun i j =>
    Fin.addCases
      (fun i2 => Fin.addCases
        (fun ip => calcPositionConstraintMatrixP c ip j)
        (fun iv => calcVelocityConstraintMatrixV c iv j) i2)
      (fun ia => calcAccelerationConstraintMatrixA c ia j) i

/-- Transpose-times-vector: `(J^T lam)_j = sum_i J i j * lam i`. -/
def transposeMulVec {m n : ℕ} (J : Fin m → Fin n → ℝ) (lam : Fin m → ℝ) : Fin n → ℝ :=
  fun j => ∑ i, J i j * lam i

/-- Modelled from the spec: the generalized force recovered from a packed
multiplier vector.  The engine hands the first `mp` multipliers to the
holonomic level, the next `mv` to the nonholonomic level and the last `ma`
to the acceleration-only level (the order in which the errors stack), and
each level contributes its Jacobian-transpose image; the returned mobility
forces together with the mobility-space image of the returned body forces
form this combined generalized force (the body-force/mobility-force split
itself is not in the source headers). -/
def forcesFromMultipliersFun (c : ConstraintModel)
    (lam : Fin (c.mp + c.mv + c.ma) → ℝ) : Fin c.nu → ℝ :=
  fun j =>
    (∑ i : Fin c.mp,
      calcPositionConstraintMatrixP c i j * lam (Fin.castAdd c.ma (Fin.castAdd c.mv i)))
    + (∑ i : Fin c.mv,
      calcVelocityConstraintMatrixV c i j * lam (Fin.castAdd c.ma (Fin.natAdd c.mp i)))
    + (∑ i : Fin c.ma,
      calcAccelerationConstraintMatrixA c i j * lam (Fin.natAdd (c.mp + c.mv) i))

/-- Modelled from the spec: `calcConstraintForcesFromMultipliers` consumes a
complete packed multiplier vector of length `mp+mv+ma` (a vector of any other
length is a caller dimension error) and recovers the constraint's generalized
forces. -/
def calcConstraintForcesFromMultipliers (c : ConstraintModel) (lambda : List ℝ) :
    Option (List ℝ) :=
  if lambda.length = c.mp + c.mv + c.ma then
    some (List.ofFn (forcesFromMultipliersFun c (fun i => lambda.getD i.val 0)))
  else none

theorem forcesFromMultipliersFun_eq_transpose (c : ConstraintModel)
    (lam : Fin (c.mp + c.mv + c.ma) → ℝ) :
    forcesFromMultipliersFun c lam = transposeMulVec (stackedJacobian c) lam := by
  funext j
  simp only [forcesFromMultipliersFun, transposeMulVec, stackedJacobian]
  rw [Fin.sum_univ_add, Fin.sum_univ_add]
  simp [Fin.addCases_left, Fin.addCases_right]

/-- Claim C1: for every constraint and every multiplier vector of length
`mp+mv+ma`, the generalized force recovered by
`calcConstraintForcesFromMultipliers` equals `J^T lam` where `J` is the
stacked `[P;V;A]` Jacobian assembled from `calcPositionConstraintMatrixP`,
`calcVelocityConstraintMatrixV` and `calcAccelerationConstraintMatrixA` at
the same state; in particular `calcPositionConstraintMatrixPt` is the
transpose of `calcPositionConstraintMatrixP`. -/
theorem calcConstraintForcesFromMultipliers_is_Jt_lambda
    (c : ConstraintModel) (lambda : List ℝ)
    (h : lambda.length = c.mp + c.mv + c.ma) :
    calcConstraintForcesFromMultipliers c lambda
      = some (List.ofFn
          (transposeMulVec (stackedJacobian c) (fun i => lambda.getD i.val 0)))
    ∧ ∀ (j : Fin c.nu) (i : Fin c.mp),
        calcPositionConstraintMatrixPt c j i = calcPositionConstraintMatrixP c i j := by
  constructor
  · rw [calcConstraintForcesFromMultipliers, if_pos h,
      forcesFromMultipliersFun_eq_transpose]
  · intro j i
    rfl

/-- A concrete one-equation-per-level constraint for the C1 witness. -/
def conW : ConstraintModel :=
  { nu := 1, mp := 1, mv := 1, ma := 1,
    P := fun _ _ => 2, V := fun _ _ => 3, A := fun _ _ => 5,
    perr := fun _ => 0, pverr := fun _ => 0, verr := fun _ => 0,
    paerr := fun _ => 0, vaerr := fun _ => 0, aerr := fun _ => 0,
    lambda := fun _ => 0 }

theorem calcConstraintForcesFromMultipliers_is_Jt_lambda_witness :
    ([1, 1, 1] : List ℝ).length = conW.mp + conW.mv + conW.ma ∧
    (calcConstraintForcesFromMultipliers conW [1, 1, 1]
      = some (List.ofFn
          (transposeMulVec (stackedJacobian conW)
            (fun i => ([1, 1, 1] : List ℝ).getD i.val 0)))
    ∧ ∀ (j : Fin conW.nu) (i : Fin conW.mp),
        calcPositionConstraintMatrixPt conW j i = calcPositionConstraintMatrixP conW i j) :=
  ⟨rfl, calcConstraintForcesFromMultipliers_is_Jt_lambda conW [1, 1, 1] rfl⟩

/-- Claim C7: the constraint error and multiplier vectors have the declared
dimensions — `getPositionError` has length `mp`, `getVelocityError` length
`mp+mv` (nonholonomic errors stacked after the holonomic-derivative errors),
`getAccelerationError` and `getMultipliers` length `mp+mv+ma` — and
`calcConstraintForcesFromMultipliers` consumes exactly a multiplier vector of
length `mp+mv+ma` (ordered holonomic, then nonholonomic, then
acceleration-only). -/
theorem constraint_vector_dimensions (c : ConstraintModel) (lambda : List ℝ) :
    (getPositionError c).length = c.mp ∧
    (getVelocityError c).length = c.mp + c.mv ∧
    (getAccelerationError c).length = c.mp + c.mv + c.ma ∧
    (getMultipliers c).length = c.mp + c.mv + c.ma ∧
    ((calcConstraintForcesFromMultipliers c lambda).isSome
      ↔ lambda.length = c.mp + c.mv + c.ma) := by
  refine ⟨?_, ?_, ?_, ?_, ?_⟩
  · simp [getPositionError]
  · simp [getVelocityError]
  · simp [getAccelerationError, Nat.add_assoc]
  · simp [getMultipliers]
  · rw [calcConstraintForcesFromMultipliers]
    by_cases hl : lambda.length = c.mp + c.mv + c.ma
    · simp [hl]
    · simp [hl]

end

end Simbody
